import Mathlib

/-!
Shallow embedding of the ox_idl literal / keyword lexer (src/literal.rs,
src/keyword.rs).  The crate builds its recognizers from the chumsky 0.x
combinator library; each Rust combinator is embedded here as an executable
function on the remaining input, a list of characters.

Semantics of the embedded combinators, following chumsky 0.x:
  * a parser maps the remaining input to an outcome: success with a value and
    the residual input, a recoverable parse failure, or a process abort
    (a Rust panic coming from an unchecked numeric conversion);
  * alternation (or) tries the left parser first and commits to its success;
    on failure the right parser is tried from the same starting position
    (failed branches rewind the cursor);
  * a top-level parse of a string runs the parser at the start of the input;
    chumsky 0.x parsers match prefixes, and this crate never appends an
    explicit end-of-input combinator, so trailing unconsumed input is not
    by itself an error.
-/

namespace OxIdl

/-- Outcome of running a parser on some remaining input.  ok carries the
produced value and the residual input; fail is a recoverable no-match;
panic is a process abort raised by an unwrap of a failed conversion. -/
inductive PRes (α : Type) where
  | ok : α → List Char → PRes α
  | fail : PRes α
  | panic : PRes α
deriving DecidableEq

/-- A parser in the embedding: a function from remaining input to outcome. -/
abbrev P (α : Type) : Type := List Char → PRes α

/-- Embeds chumsky a.or(b): try a, commit to its success; on failure try b
from the same position.  A panic propagates. -/
def pOr {α : Type} (p q : P α) : P α := fun s =>
  match p s with
  | .fail => q s
  | r => r

/-- Embeds chumsky .map(f) with an infallible closure. -/
def pMap {α β : Type} (f : α → β) (p : P α) : P β := fun s =>
  match p s with
  | .ok a r => .ok (f a) r
  | .fail => .fail
  | .panic => .panic

/-- Embeds chumsky .map whose closure performs a Rust conversion followed by
.unwrap(): if the conversion fails the process aborts (panic). -/
def pMapUnwrap {α β : Type} (f : α → Option β) (p : P α) : P β := fun s =>
  match p s with
  | .ok a r =>
    match f a with
    | some b => .ok b r
    | none => .panic
  | .fail => .fail
  | .panic => .panic

/-- Embeds chumsky .try_map: a failing closure is a recoverable parse
failure, not an abort. -/
def pTryMap {α β : Type} (f : α → Option β) (p : P α) : P β := fun s =>
  match p s with
  | .ok a r =>
    match f a with
    | some b => .ok b r
    | none => .fail
  | .fail => .fail
  | .panic => .panic

/-- Embeds chumsky a.then(b): run a, then b on the residual input. -/
def pThen {α β : Type} (p : P α) (q : P β) : P (α × β) := fun s =>
  match p s with
  | .ok a r =>
    match q r with
    | .ok b r2 => .ok (a, b) r2
    | .fail => .fail
    | .panic => .panic
  | .fail => .fail
  | .panic => .panic

/-- Embeds chumsky a.then_ignore(b). -/
def pThenIgnore {α β : Type} (p : P α) (q : P β) : P α :=
  pMap Prod.fst (pThen p q)

/-- Embeds chumsky a.ignore_then(b). -/
def pIgnoreThen {α β : Type} (p : P α) (q : P β) : P β :=
  pMap Prod.snd (pThen p q)

/-- Embeds chumsky filter(pred): consume one character satisfying pred. -/
def filterP (pred : Char → Bool) : P Char := fun s =>
  match s with
  | [] => .fail
  | c :: r => if pred c then .ok c r else .fail

/-- Embeds chumsky just(c) for a single character. -/
def justChar (c : Char) : P Char := fun s =>
  match s with
  | [] => .fail
  | x :: r => if x = c then .ok c r else .fail

/-- Helper for justStr: consume an exact character sequence, returning the
residual input on success. -/
def matchLit : List Char → List Char → Option (List Char)
  | [], s => some s
  | _ :: _, [] => none
  | t :: ts, c :: cs => if c = t then matchLit ts cs else none

/-- Embeds chumsky just(t) for a string t: consume exactly t. -/
def justStr (t : List Char) : P (List Char) := fun s =>
  match matchLit t s with
  | some r => .ok t r
  | none => .fail

/-- Bounded iteration used for both repeated() and repeated().at_most(n):
apply p greedily up to the given number of times, collecting results.
Each failed iteration rewinds. -/
def repUpTo {α : Type} (p : P α) : Nat → P (List α)
  | 0 => fun s => .ok [] s
  | n + 1 => fun s =>
    match p s with
    | .fail => .ok [] s
    | .panic => .panic
    | .ok a r =>
      match repUpTo p n r with
      | .ok as r2 => .ok (a :: as) r2
      | .fail => .fail
      | .panic => .panic

/-- Embeds chumsky .repeated(): zero or more, greedy.  Every repeated parser
in this crate consumes at least one character per success, so input length
plus one bounds the number of iterations and the fuel is never exhausted. -/
def repeatedP {α : Type} (p : P α) : P (List α) := fun s =>
  repUpTo p (s.length + 1) s

/-- Embeds chumsky .repeated().at_most(n). -/
def repAtMost {α : Type} (n : Nat) (p : P α) : P (List α) :=
  repUpTo p n

/-- Embeds chumsky .repeated().at_least(1): run the greedy repetition and
fail when it matched nothing. -/
def repAtLeastOne {α : Type} (p : P α) : P (List α) := fun s =>
  match repeatedP p s with
  | .ok as r => if as.isEmpty then .fail else .ok as r
  | other => other

/-- Value of an ASCII digit character under Rust char::to_digit: 0-9, then
a-z and A-Z standing for 10..35. -/
def digitVal? (c : Char) : Option Nat :=
  let n := c.toNat
  if 48 ≤ n ∧ n ≤ 57 then some (n - 48)
  else if 97 ≤ n ∧ n ≤ 122 then some (n - 97 + 10)
  else if 65 ≤ n ∧ n ≤ 90 then some (n - 65 + 10)
  else none

/-- Rust char::is_digit(radix): the character has a digit value below the
radix. -/
def isDigitR (radix : Nat) (c : Char) : Bool :=
  match digitVal? c with
  | some v => v < radix
  | none => false

/-- Numeric value of a digit sequence read in the given radix, as Rust
u64::from_str_radix computes it before its overflow check. -/
def radixVal (radix : Nat) (ds : List Char) : Nat :=
  ds.foldl (fun acc c => acc * radix + ((digitVal? c).getD 0)) 0

/-- Rust u64::from_str_radix / str::parse to u64 on a pure digit sequence:
some value when it fits in 64 bits, none (an Err, unwrapped to a panic at
every call site in this crate) on overflow. -/
def u64OfDigits? (radix : Nat) (ds : List Char) : Option Nat :=
  if radixVal radix ds < 2 ^ 64 then some (radixVal radix ds) else none

/-- Rust char::is_ascii: code point at most 0x7F. -/
def isAsciiChar (c : Char) : Bool := decide (c.toNat ≤ 127)

/-- Rust char::is_whitespace: the Unicode White_Space code points. -/
def isRustWhitespace (c : Char) : Bool :=
  decide (c.toNat ∈ ([0x09, 0x0A, 0x0B, 0x0C, 0x0D, 0x20, 0x85, 0xA0, 0x1680,
    0x2000, 0x2001, 0x2002, 0x2003, 0x2004, 0x2005, 0x2006, 0x2007, 0x2008,
    0x2009, 0x200A, 0x2028, 0x2029, 0x202F, 0x205F, 0x3000] : List Nat))

/-- Embeds chumsky text::int(radix): a non-empty digit sequence whose first
digit is non-zero, or the single digit zero (no leading zeroes). -/
def textInt (radix : Nat) : P (List Char) :=
  pOr
    (pMap (fun p => p.1 :: p.2)
      (pThen (filterP (fun c => isDigitR radix c && c != '0'))
        (repeatedP (filterP (isDigitR radix)))))
    (pMap (fun c => [c]) (justChar '0'))

/-- Embeds chumsky text::digits(radix): one or more digits, leading zeroes
allowed. -/
def textDigits (radix : Nat) : P (List Char) :=
  repAtLeastOne (filterP (isDigitR radix))

/-- Embeds chumsky text::ident(): a C-style identifier, an ASCII letter or
underscore followed by ASCII alphanumerics or underscores. -/
def textIdent : P (List Char) :=
  pMap (fun p => p.1 :: p.2)
    (pThen (filterP (fun c => c.isAlpha || c = '_'))
      (repeatedP (filterP (fun c => c.isAlphanum || c = '_'))))

/-- Embeds chumsky text::keyword(kw): parse an identifier and require it to
equal kw exactly; a longer identifier run is a failure, which gives
whole-word matching. -/
def textKeyword (kw : List Char) : P Unit :=
  pTryMap (fun s => if s = kw then some () else none) textIdent

/-- Embeds chumsky text::whitespace(): zero or more whitespace characters. -/
def textWhitespace : P (List Unit) :=
  repeatedP (pMap (fun _ => ()) (filterP isRustWhitespace))

/-- The Literal enum of src/literal.rs.  Integer and FixedPoint payloads are
the u64 magnitudes (the conversion panics before a value of 2^64 or more is
ever stored, so the Nat payload is always below 2^64).  The FloatingPoint
payload is represented by the exact character sequence the Rust code hands
to the f64 conversion (which never fails on these digit-and-dot shapes);
the binary floating-point value itself is not modelled. -/
inductive Literal where
  | Bool : Bool → Literal
  | Character : Char → Literal
  | FixedPoint : Nat → Nat → Literal
  | FloatingPoint : List Char → Literal
  | Integer : Nat → Literal
  | Str : List Char → Literal
deriving DecidableEq

/-- Literal::true_parser: the keyword TRUE. -/
def trueParser : P Literal :=
  pMap (fun _ => Literal.Bool true) (textKeyword ("TRUE".toList))

/-- Literal::false_parser: the keyword FALSE. -/
def falseParser : P Literal :=
  pMap (fun _ => Literal.Bool false) (textKeyword ("FALSE".toList))

/-- Literal::bool_parser: TRUE or FALSE. -/
def boolParser : P Literal := pOr trueParser falseParser

/-- Literal::dec_int_parser: text::int(10) converted by str::parse to u64,
unwrapped. -/
def decIntParser : P Literal :=
  pMapUnwrap (fun d => (u64OfDigits? 10 d).map Literal.Integer) (textInt 10)

/-- Literal::hex_int_parser: just("0x").or(just("0X")) then text::int(16),
converted by u64::from_str_radix 16, unwrapped. -/
def hexIntParser : P Literal :=
  pMapUnwrap (fun d => (u64OfDigits? 16 d).map Literal.Integer)
    (pIgnoreThen (pOr (justStr ("0x".toList)) (justStr ("0X".toList)))
      (textInt 16))

/-- Literal::oct_int_parser: just("0") then text::int(8), converted by
u64::from_str_radix 8 on the second component, unwrapped. -/
def octIntParser : P Literal :=
  pMapUnwrap (fun pd => (u64OfDigits? 8 pd.2).map Literal.Integer)
    (pThen (justStr ("0".toList)) (textInt 8))

/-- Literal::int_parser: hex, then octal, then decimal. -/
def intParser : P Literal :=
  pOr (pOr hexIntParser octIntParser) decIntParser

/-- The decimal_only alternative of Literal::float_parser: digits then a dot;
the f64 conversion receives just the digits. -/
def floatDecimalOnly : P Literal :=
  pMap (fun d => Literal.FloatingPoint d)
    (pThenIgnore (textDigits 10) (justChar '.'))

/-- The fractional_only alternative of Literal::float_parser: a dot then
digits; the f64 conversion receives the dot prepended to the digits. -/
def floatFractionalOnly : P Literal :=
  pMap (fun f => Literal.FloatingPoint ('.' :: f))
    (pIgnoreThen (justChar '.') (textDigits 10))

/-- The decimal_and_fractional alternative of Literal::float_parser: digits,
a dot, digits; the f64 conversion receives the three glued together. -/
def floatDecimalAndFractional : P Literal :=
  pMap (fun p => Literal.FloatingPoint (p.1 ++ '.' :: p.2))
    (pThen (pThenIgnore (textDigits 10) (justChar '.')) (textDigits 10))

/-- Literal::float_parser: decimal_and_fractional, then decimal_only, then
fractional_only. -/
def floatParser : P Literal :=
  pOr (pOr floatDecimalAndFractional floatDecimalOnly) floatFractionalOnly

/-- The d-or-D suffix of Literal::fixed_parser. -/
def theD : P Char := pOr (justChar 'd') (justChar 'D')

/-- The decimal_only alternative of Literal::fixed_parser: digits, at most
one dot, the suffix; fraction part is zero. -/
def fixedDecimalOnly : P Literal :=
  pMapUnwrap (fun d => (u64OfDigits? 10 d).map (fun n => Literal.FixedPoint n 0))
    (pThenIgnore (pThenIgnore (textDigits 10) (repAtMost 1 (justChar '.'))) theD)

/-- The fractional_only alternative of Literal::fixed_parser: a dot, digits,
the suffix; integer part is zero. -/
def fixedFractionalOnly : P Literal :=
  pMapUnwrap (fun f => (u64OfDigits? 10 f).map (fun n => Literal.FixedPoint 0 n))
    (pThenIgnore (pIgnoreThen (justChar '.') (textDigits 10)) theD)

/-- The decimal_and_fractional alternative of Literal::fixed_parser: digits,
a dot, digits, the suffix; both parts converted and unwrapped. -/
def fixedDecimalAndFractional : P Literal :=
  pMapUnwrap
    (fun df =>
      match u64OfDigits? 10 df.1, u64OfDigits? 10 df.2 with
      | some a, some b => some (Literal.FixedPoint a b)
      | _, _ => none)
    (pThenIgnore
      (pThen (pThenIgnore (textDigits 10) (justChar '.')) (textDigits 10))
      theD)

/-- Literal::fixed_parser: decimal_and_fractional, then decimal_only, then
fractional_only. -/
def fixedParser : P Literal :=
  pOr (pOr fixedDecimalAndFractional fixedDecimalOnly) fixedFractionalOnly

/-- Literal::char_parser: one character accepted by char::is_ascii,
delimited by single quotes. -/
def charParser : P Literal :=
  pMap Literal.Character
    (pThenIgnore
      (pIgnoreThen (justStr ("'".toList)) (filterP isAsciiChar))
      (justStr ("'".toList)))

/-- The single_string sub-parser of Literal::string_parser: any run of
non-quote characters delimited by double quotes. -/
def singleString : P (List Char) :=
  pThenIgnore
    (pIgnoreThen (justChar '"') (repeatedP (filterP (fun c => c != '"'))))
    (justChar '"')

/-- Literal::string_parser: quoted segments each followed by optional
whitespace, repeated zero or more times, all segments concatenated. -/
def stringParser : P Literal :=
  pMap (fun vs => Literal.Str vs.flatten)
    (repeatedP (pThenIgnore singleString textWhitespace))

/-- Literal::parser: the ordered union Boolean, FixedPoint, Float, Integer,
Character, String, associated exactly as in the source. -/
def literalParser : P Literal :=
  pOr (pOr (pOr (pOr (pOr boolParser fixedParser) floatParser) intParser)
    charParser) stringParser

/-- The Keyword enum of src/keyword.rs: every reserved word of the IDL
grammar. -/
inductive Keyword where
  | Abstract | Any | Alias | Attribute | Bitfield | Bitmask | Bitset
  | Boolean | Case | Char | Component | Connector | Const | Consumes
  | Context | Custom | Default | Double | Exception | Emits | Enum
  | EventType | Factory | False | Finder | Fixed | Float | GetRaises
  | Home | Import | In | InOut | Interface | Local | Long | Manages
  | Map | MirrorPort | Module | Multiple | Native | Object | Octet
  | OneWay | Out | PrimaryKey | Private | Port | PortType | Provides
  | Public | Publishes | Raises | ReadOnly | SetRaises | Sequence
  | Short | String | Struct | Supports | Switch | True | Truncatable
  | Typedef | TypeId | TypeName | TypePrefix | Unsigned | Union | Uses
  | ValueBase | ValueType | Void | WChar | WString
  | Int8 | Int16 | Int32 | Int64 | UInt8 | UInt16 | UInt32 | UInt64
deriving DecidableEq

/-- The Display implementation for Keyword: FALSE, Object, TRUE and
ValueBase keep their specific case, every other variant is the variant
name in lower case. -/
def spelling : Keyword → List Char
  | .False => ("FALSE".toList)
  | .Object => ("Object".toList)
  | .True => ("TRUE".toList)
  | .ValueBase => ("ValueBase".toList)
  | .Abstract => ("abstract".toList)
  | .Any => ("any".toList)
  | .Alias => ("alias".toList)
  | .Attribute => ("attribute".toList)
  | .Bitfield => ("bitfield".toList)
  | .Bitmask => ("bitmask".toList)
  | .Bitset => ("bitset".toList)
  | .Boolean => ("boolean".toList)
  | .Case => ("case".toList)
  | .Char => ("char".toList)
  | .Component => ("component".toList)
  | .Connector => ("connector".toList)
  | .Const => ("const".toList)
  | .Consumes => ("consumes".toList)
  | .Context => ("context".toList)
  | .Custom => ("custom".toList)
  | .Default => ("default".toList)
  | .Double => ("double".toList)
  | .Exception => ("exception".toList)
  | .Emits => ("emits".toList)
  | .Enum => ("enum".toList)
  | .EventType => ("eventtype".toList)
  | .Factory => ("factory".toList)
  | .Finder => ("finder".toList)
  | .Fixed => ("fixed".toList)
  | .Float => ("float".toList)
  | .GetRaises => ("getraises".toList)
  | .Home => ("home".toList)
  | .Import => ("import".toList)
  | .In => ("in".toList)
  | .InOut => ("inout".toList)
  | .Interface => ("interface".toList)
  | .Local => ("local".toList)
  | .Long => ("long".toList)
  | .Manages => ("manages".toList)
  | .Map => ("map".toList)
  | .MirrorPort => ("mirrorport".toList)
  | .Module => ("module".toList)
  | .Multiple => ("multiple".toList)
  | .Native => ("native".toList)
  | .Octet => ("octet".toList)
  | .OneWay => ("oneway".toList)
  | .Out => ("out".toList)
  | .PrimaryKey => ("primarykey".toList)
  | .Private => ("private".toList)
  | .Port => ("port".toList)
  | .PortType => ("porttype".toList)
  | .Provides => ("provides".toList)
  | .Public => ("public".toList)
  | .Publishes => ("publishes".toList)
  | .Raises => ("raises".toList)
  | .ReadOnly => ("readonly".toList)
  | .SetRaises => ("setraises".toList)
  | .Sequence => ("sequence".toList)
  | .Short => ("short".toList)
  | .String => ("string".toList)
  | .Struct => ("struct".toList)
  | .Supports => ("supports".toList)
  | .Switch => ("switch".toList)
  | .Truncatable => ("truncatable".toList)
  | .Typedef => ("typedef".toList)
  | .TypeId => ("typeid".toList)
  | .TypeName => ("typename".toList)
  | .TypePrefix => ("typeprefix".toList)
  | .Unsigned => ("unsigned".toList)
  | .Union => ("union".toList)
  | .Uses => ("uses".toList)
  | .ValueType => ("valuetype".toList)
  | .Void => ("void".toList)
  | .WChar => ("wchar".toList)
  | .WString => ("wstring".toList)
  | .Int8 => ("int8".toList)
  | .Int16 => ("int16".toList)
  | .Int32 => ("int32".toList)
  | .Int64 => ("int64".toList)
  | .UInt8 => ("uint8".toList)
  | .UInt16 => ("uint16".toList)
  | .UInt32 => ("uint32".toList)
  | .UInt64 => ("uint64".toList)

/-- Keyword::make_parser: text::keyword on the Display spelling, producing
the keyword value itself. -/
def makeParser (k : Keyword) : P Keyword :=
  pMap (fun _ => k) (textKeyword (spelling k))

/-- Greedy character repetition: repUpTo over a single-character filter
splits the input at the first character that fails the predicate. -/
theorem repUpTo_filterP (pred : Char → Bool) (n : Nat) :
    ∀ s : List Char, s.length < n →
      repUpTo (filterP pred) n s = .ok (s.takeWhile pred) (s.dropWhile pred) := by
  induction n with
  | zero => intro s h; omega
  | succ n ih =>
    intro s h
    cases s with
    | nil => simp [repUpTo, filterP]
    | cons c t =>
      by_cases hc : pred c
      · have ht : t.length < n := by simpa using h
        simp [repUpTo, filterP, hc, ih t ht, List.takeWhile_cons, List.dropWhile_cons]
      · simp [repUpTo, filterP, hc, List.takeWhile_cons, List.dropWhile_cons]

/-- repeated() over a single-character filter is the takeWhile split. -/
theorem repeatedP_filterP (pred : Char → Bool) (s : List Char) :
    repeatedP (filterP pred) s = .ok (s.takeWhile pred) (s.dropWhile pred) :=
  repUpTo_filterP pred (s.length + 1) s (Nat.lt_succ_self _)

/-- takeWhile keeps a list all of whose elements satisfy the predicate. -/
theorem takeWhile_all {p : Char → Bool} :
    ∀ {l : List Char}, (∀ x ∈ l, p x = true) → l.takeWhile p = l := by
  intro l
  induction l with
  | nil => intro _; rfl
  | cons c t ih =>
    intro h
    have hc : p c = true := h c (by simp)
    simp [List.takeWhile_cons, hc, ih (fun x hx => h x (by simp [hx]))]

/-- dropWhile drops a list all of whose elements satisfy the predicate. -/
theorem dropWhile_all {p : Char → Bool} :
    ∀ {l : List Char}, (∀ x ∈ l, p x = true) → l.dropWhile p = [] := by
  intro l
  induction l with
  | nil => intro _; rfl
  | cons c t ih =>
    intro h
    have hc : p c = true := h c (by simp)
    simp [List.dropWhile_cons, hc, ih (fun x hx => h x (by simp [hx]))]

/-- text::int consumes a whole digit sequence exactly when it is non-empty,
all digits are valid for the radix, and there is no leading zero (a lone
zero is allowed). -/
theorem textInt_ok (radix : Nat) (d : List Char) (hne : d ≠ [])
    (hd : ∀ x ∈ d, isDigitR radix x = true)
    (h0 : d.head? = some '0' → d = ['0']) :
    textInt radix d = .ok d [] := by
  cases d with
  | nil => exact absurd rfl hne
  | cons c t =>
    by_cases hc0 : c = '0'
    · subst hc0
      have ht : ('0' :: t : List Char) = ['0'] := h0 rfl
      have : t = [] := by simpa using ht
      subst this
      simp [textInt, pOr, pMap, pThen, filterP, justChar]
    · have hc : isDigitR radix c = true := hd c (by simp)
      have hcb : (isDigitR radix c && (c != '0')) = true := by
        simp [hc, bne_iff_ne, hc0]
      have ht : ∀ x ∈ t, isDigitR radix x = true := fun x hx => hd x (by simp [hx])
      simp [textInt, pOr, pMap, pThen, filterP, hcb, repeatedP_filterP,
        takeWhile_all ht, dropWhile_all ht]

/-- The hex recognizer on a 0x prefix followed by a well-formed hex digit
sequence consumes everything and yields the base-16 value. -/
theorem hexIntParser_ok (d : List Char) (hne : d ≠ [])
    (hd : ∀ x ∈ d, isDigitR 16 x = true)
    (h0 : d.head? = some '0' → d = ['0'])
    (hov : radixVal 16 d < 2 ^ 64) :
    hexIntParser ('0' :: 'x' :: d) = .ok (.Integer (radixVal 16 d)) [] := by
  have h := textInt_ok 16 d hne hd h0
  have hov2 : radixVal 16 d < 18446744073709551616 := by simpa using hov
  simp [hexIntParser, pIgnoreThen, pMap, pThen, pOr, justStr, matchLit, h,
    pMapUnwrap, u64OfDigits?, hov2]

/-- Same with the alternate 0X prefix. -/
theorem hexIntParserX_ok (d : List Char) (hne : d ≠ [])
    (hd : ∀ x ∈ d, isDigitR 16 x = true)
    (h0 : d.head? = some '0' → d = ['0'])
    (hov : radixVal 16 d < 2 ^ 64) :
    hexIntParser ('0' :: 'X' :: d) = .ok (.Integer (radixVal 16 d)) [] := by
  have h := textInt_ok 16 d hne hd h0
  have hov2 : radixVal 16 d < 18446744073709551616 := by simpa using hov
  simp [hexIntParser, pIgnoreThen, pMap, pThen, pOr, justStr, matchLit, h,
    pMapUnwrap, u64OfDigits?, hov2]

/-- The composite integer recognizer agrees with the hex recognizer on hex
input, because hex is its first alternative. -/
theorem intParser_hex_first (d : List Char) (hne : d ≠ [])
    (hd : ∀ x ∈ d, isDigitR 16 x = true)
    (h0 : d.head? = some '0' → d = ['0'])
    (hov : radixVal 16 d < 2 ^ 64) :
    intParser ('0' :: 'x' :: d) = .ok (.Integer (radixVal 16 d)) [] := by
  have h := hexIntParser_ok d hne hd h0 hov
  simp [intParser, pOr, h]

/-- The octal recognizer on a leading zero followed by a well-formed octal
digit sequence consumes everything and yields the base-8 value. -/
theorem octIntParser_ok (d : List Char) (hne : d ≠ [])
    (hd : ∀ x ∈ d, isDigitR 8 x = true)
    (h0 : d.head? = some '0' → d = ['0'])
    (hov : radixVal 8 d < 2 ^ 64) :
    octIntParser ('0' :: d) = .ok (.Integer (radixVal 8 d)) [] := by
  have h := textInt_ok 8 d hne hd h0
  have hov2 : radixVal 8 d < 18446744073709551616 := by simpa using hov
  simp [octIntParser, pThen, justStr, matchLit, h, pMapUnwrap, u64OfDigits?, hov2]

/-- The octal recognizer rejects an input whose digit immediately after the
leading zero is 8 or 9. -/
theorem octIntParser_89 (c : Char) (t : List Char) (h : c = '8' ∨ c = '9') :
    octIntParser ('0' :: c :: t) = .fail := by
  rcases h with h | h <;> subst h <;>
    simp [octIntParser, pThen, pMapUnwrap, justStr, matchLit, textInt, pOr,
      pMap, filterP, justChar, isDigitR, digitVal?]

/-- The decimal recognizer on a well-formed decimal digit sequence consumes
everything and yields the base-10 value. -/
theorem decIntParser_ok (d : List Char) (hne : d ≠ [])
    (hd : ∀ x ∈ d, isDigitR 10 x = true)
    (h0 : d.head? = some '0' → d = ['0'])
    (hov : radixVal 10 d < 2 ^ 64) :
    decIntParser d = .ok (.Integer (radixVal 10 d)) [] := by
  have h := textInt_ok 10 d hne hd h0
  have hov2 : radixVal 10 d < 18446744073709551616 := by simpa using hov
  simp [decIntParser, h, pMapUnwrap, u64OfDigits?, hov2]

/-- The character recognizer accepts any single ASCII character between
single quotes. -/
theorem charParser_ascii (c : Char) (h : isAsciiChar c = true) :
    charParser ('\'' :: c :: '\'' :: []) = .ok (.Character c) [] := by
  simp [charParser, pMap, pThenIgnore, pIgnoreThen, pThen, justStr, matchLit,
    filterP, h]

/-- C1: Literal::parser is the ordered union Boolean, FixedPoint, Float,
Integer, Character, String (pOr commits to the first success): on "2.1d" it
yields FixedPoint(2,1) because fixed is tried before float, on "2.1" a
FloatingPoint built from the text "2.1" because float is tried before
integer, on "TRUE" Bool(true) and on "FALSE" Bool(false); on "true" the
case-sensitive Bool alternative does not match, and the result is instead
the empty Str match of the last alternative, consuming nothing. -/
theorem c1_literal_ordered_union :
    literalParser ("2.1d".toList) = .ok (.FixedPoint 2 1) [] ∧
    literalParser ("2.1".toList) = .ok (.FloatingPoint ("2.1".toList)) [] ∧
    literalParser ("TRUE".toList) = .ok (.Bool true) [] ∧
    literalParser ("FALSE".toList) = .ok (.Bool false) [] ∧
    literalParser ("true".toList) = .ok (.Str []) ("true".toList) := by
  decide

/-- C2 counterexample: the hex recognizer does not return base16(d) for
every non-empty hex digit sequence d.  For d = "01" (leading zero) the
underlying text::int(16) matches only the lone zero, so the recognizer
returns Integer(0) with the final "1" unconsumed although base16("01") = 1;
and for d = "10000000000000000" (value 2^64) the unchecked conversion
aborts instead of returning a value. -/
theorem c2_hex_leading_zero_counterexample :
    hexIntParser ("0x01".toList) = .ok (.Integer 0) ['1'] ∧
    radixVal 16 ("01".toList) = 1 ∧
    hexIntParser ("0x10000000000000000".toList) = .panic := by
  decide

/-- C2 (amended): for every non-empty hex digit sequence d with no leading
zero (a lone "0" is allowed) whose base-16 value fits in 64 bits, the hex
recognizer on "0x" + d and on "0X" + d succeeds, consumes everything, and
returns Integer(base16(d)); the composite integer recognizer returns the
same because hex is its first alternative; bare "0x" is a non-match, not
the value zero. -/
theorem c2_hex_amended :
    (∀ d : List Char, d ≠ [] → (∀ x ∈ d, isDigitR 16 x = true) →
      (d.head? = some '0' → d = ['0']) → radixVal 16 d < 2 ^ 64 →
      hexIntParser ('0' :: 'x' :: d) = .ok (.Integer (radixVal 16 d)) [] ∧
      hexIntParser ('0' :: 'X' :: d) = .ok (.Integer (radixVal 16 d)) [] ∧
      intParser ('0' :: 'x' :: d) = .ok (.Integer (radixVal 16 d)) []) ∧
    hexIntParser ("0x".toList) = .fail := by
  refine ⟨?_, by decide⟩
  intro d hne hd h0 hov
  exact ⟨hexIntParser_ok d hne hd h0 hov, hexIntParserX_ok d hne hd h0 hov,
    intParser_hex_first d hne hd h0 hov⟩

/-- C2 witness: the amended statement applied to the digit sequence "1f". -/
theorem c2_hex_amended_witness :
    hexIntParser ("0x1f".toList) = .ok (.Integer 31) [] ∧
    intParser ("0x1f".toList) = .ok (.Integer 31) [] := by
  have h := c2_hex_amended.1 (['1', 'f']) (by decide) (by decide) (by decide)
    (by decide)
  exact ⟨h.1, h.2.2⟩

/-- C3 counterexample: the octal recognizer does not return base8(d) for
every 0-7 digit sequence d, and an 8 or 9 in the digit run does not always
reject.  On "001" (d = "01", leading zero) it returns Integer(0) leaving
"1" unconsumed although base8("01") = 1; on "018" it succeeds with
Integer(1) leaving "8" unconsumed instead of rejecting; the standalone
decimal recognizer on the 8-containing run "08" returns Integer(0) leaving
"8", not the decimal magnitude 8; and on 64-bit overflow both the octal and
decimal recognizers abort instead of producing a value. -/
theorem c3_octal_counterexample :
    octIntParser ("001".toList) = .ok (.Integer 0) ['1'] ∧
    radixVal 8 ("01".toList) = 1 ∧
    octIntParser ("018".toList) = .ok (.Integer 1) ['8'] ∧
    decIntParser ("08".toList) = .ok (.Integer 0) ['8'] ∧
    octIntParser ("07777777777777777777777".toList) = .panic ∧
    decIntParser ("99999999999999999999".toList) = .panic := by
  decide

/-- C3 (amended): for every non-empty 0-7 digit sequence d with no leading
zero (a lone "0" is allowed) whose base-8 value fits in 64 bits, the octal
recognizer on "0" + d consumes everything and returns Integer(base8(d));
an input whose digit immediately after the leading zero is 8 or 9 is
rejected by the octal recognizer; and the standalone decimal recognizer
yields the base-10 magnitude of any well-formed decimal digit sequence
(no leading zero, value below 2^64), including ones containing 8 or 9. -/
theorem c3_octal_amended :
    (∀ d : List Char, d ≠ [] → (∀ x ∈ d, isDigitR 8 x = true) →
      (d.head? = some '0' → d = ['0']) → radixVal 8 d < 2 ^ 64 →
      octIntParser ('0' :: d) = .ok (.Integer (radixVal 8 d)) []) ∧
    (∀ (c : Char) (t : List Char), c = '8' ∨ c = '9' →
      octIntParser ('0' :: c :: t) = .fail) ∧
    (∀ d : List Char, d ≠ [] → (∀ x ∈ d, isDigitR 10 x = true) →
      (d.head? = some '0' → d = ['0']) → radixVal 10 d < 2 ^ 64 →
      decIntParser d = .ok (.Integer (radixVal 10 d)) []) :=
  ⟨octIntParser_ok, octIntParser_89, decIntParser_ok⟩

/-- C3 witness: the amended statement applied to "0527", "08" and "89". -/
theorem c3_octal_amended_witness :
    octIntParser ("0527".toList) = .ok (.Integer 343) [] ∧
    octIntParser ("08".toList) = .fail ∧
    decIntParser ("89".toList) = .ok (.Integer 89) [] :=
  ⟨c3_octal_amended.1 (['5', '2', '7']) (by decide) (by decide) (by decide)
      (by decide),
    c3_octal_amended.2.1 '8' [] (Or.inl rfl),
    c3_octal_amended.2.2 (['8', '9']) (by decide) (by decide) (by decide)
      (by decide)⟩

/-- C4: the fixed-point recognizer requires the d/D suffix (either case) and
stores the two raw digit magnitudes: "3.6D" gives FixedPoint(3,6), "3d"
gives FixedPoint(3,0), ".3d" gives FixedPoint(0,3); without the suffix
("3.6") it is a non-match; and through the composite literal recognizer
each of these inputs is matched by the fixed-point rule, yielding a
FixedPoint value rather than a float plus a stray letter. -/
theorem c4_fixed_point_suffix :
    fixedParser ("3.6D".toList) = .ok (.FixedPoint 3 6) [] ∧
    fixedParser ("3.6d".toList) = .ok (.FixedPoint 3 6) [] ∧
    fixedParser ("3.6".toList) = .fail ∧
    literalParser ("3.6D".toList) = .ok (.FixedPoint 3 6) [] ∧
    literalParser ("3d".toList) = .ok (.FixedPoint 3 0) [] ∧
    literalParser (".3d".toList) = .ok (.FixedPoint 0 3) [] := by
  decide

/-- C5: the float recognizer accepts the three shapes in order, full form
first: "2.1" is consumed whole by integer-part + dot + fraction-part (had
the integer-part + dot shape been tried first it would have stopped after
"2."), "0." by integer-part + dot, ".0" by dot + fraction-part; the lone
dot "." with both digit runs empty is rejected by the float recognizer and
by the fixed-point recognizer; and the composite literal recognizer reads
"2.1" as the float built from the text "2.1". -/
theorem c5_float_shapes :
    floatParser ("2.1".toList) = .ok (.FloatingPoint ("2.1".toList)) [] ∧
    floatParser ("0.".toList) = .ok (.FloatingPoint ("0".toList)) [] ∧
    floatParser (".0".toList) = .ok (.FloatingPoint (".0".toList)) [] ∧
    floatParser (".".toList) = .fail ∧
    fixedParser (".".toList) = .fail ∧
    literalParser ("2.1".toList) = .ok (.FloatingPoint ("2.1".toList)) [] := by
  decide

/-- C6: the error branch of the unchecked numeric conversion is reachable:
on the decimal literal 2^64 (one more than the largest 64-bit value) the
matched digit run converts to none and the unwrap aborts the process
(panic), instead of producing a recoverable failure; the composite literal
recognizer aborts on the same input. -/
theorem c6_overflow_panics :
    decIntParser ("18446744073709551616".toList) = .panic ∧
    literalParser ("18446744073709551616".toList) = .panic := by
  decide

/-- C7: the string recognizer concatenates adjacent double-quoted segments
separated only by whitespace, preserving order and inserting nothing
between segments; an empty segment is valid, yields the empty string, and
contributes nothing to a concatenation. -/
theorem c7_string_concatenation :
    stringParser ("\"Hello\" \"World\"".toList) = .ok (.Str ("HelloWorld".toList)) [] ∧
    Literal.Str ("HelloWorld".toList) ≠ Literal.Str ("Hello World".toList) ∧
    stringParser ("\"\"".toList) = .ok (.Str []) [] ∧
    stringParser ("\"\" \"World\"".toList) = .ok (.Str ("World".toList)) [] := by
  decide

/-- C8: keyword matching round-trips and is whole-word: every variant's
matcher accepts its own Display spelling exactly, "structx" fails against
the struct keyword because the identifier run extends past it, and
"struct " succeeds consuming exactly the six keyword characters, leaving
the space. -/
theorem c8_keyword_roundtrip :
    (∀ k : Keyword, makeParser k (spelling k) = .ok k []) ∧
    makeParser Keyword.Struct ("structx".toList) = .fail ∧
    makeParser Keyword.Struct ("struct ".toList) = .ok Keyword.Struct [' '] := by
  refine ⟨?_, by decide, by decide⟩
  intro k
  cases k <;> decide

/-- C8 witness: the round-trip instantiated at the struct keyword. -/
theorem c8_keyword_roundtrip_witness :
    makeParser Keyword.Struct (spelling Keyword.Struct) = .ok Keyword.Struct [] :=
  c8_keyword_roundtrip.1 Keyword.Struct

/-- C9 counterexample: the character recognizer does not accept every
character of the 8-bit Latin (ISO 8859-1) range.  The filter in the code is
char::is_ascii, so the Latin-1 character with code point 233 (which the
claim requires to parse to Character of it) is a non-match. -/
theorem c9_char_latin1_counterexample :
    charParser ("'é'".toList) = .fail ∧ ('é').toNat = 233 ∧ 233 ≤ 255 := by
  decide

/-- C9 (amended): the character recognizer accepts exactly one character
between single quotes with that character drawn from the ASCII range (code
point at most 127, not the full Latin-1 range): every ASCII character
parses to Character of it, while multiple characters between the quotes
("'AB'") and zero characters ("''") are non-matches. -/
theorem c9_char_ascii_amended :
    (∀ c : Char, isAsciiChar c = true →
      charParser ('\'' :: c :: '\'' :: []) = .ok (.Character c) []) ∧
    charParser ("'AB'".toList) = .fail ∧
    charParser ("''".toList) = .fail :=
  ⟨charParser_ascii, by decide, by decide⟩

/-- C9 witness: the amended statement applied to the ASCII character A. -/
theorem c9_char_ascii_amended_witness :
    charParser ("'A'".toList) = .ok (.Character 'A') [] :=
  c9_char_ascii_amended.1 'A' (by decide)

/-- C10: on empty input the string recognizer succeeds with the empty Str
because the segment repetition has no minimum count, and the composite
literal recognizer, whose last alternative is the string recognizer,
therefore also succeeds on empty input with the empty Str rather than
failing. -/
theorem c10_empty_input_string :
    stringParser [] = .ok (.Str []) [] ∧
    literalParser [] = .ok (.Str []) [] := by
  decide

end OxIdl
